import Mathlib

/-!
Shallow embedding of the outreach-automation scripts (email, Instagram,
WhatsApp variants) for checking the natural-language specification.

Python string operations are modelled over ASCII `List Char` / `String`.
Stateful code is modelled by explicit state passing; file I/O is modelled
by lists of records; transport outcomes are supplied by oracle functions;
code paths that raise uncaught exceptions return `Except.error`.
-/

deriving instance DecidableEq for Except

/-- The characters removed by Python's `str.strip()` (default whitespace). -/
def isPySpace (c : Char) : Bool :=
  c = ' ' || c = '\t' || c = '\n' || c = '\r' || c = '\x0b' || c = '\x0c'

/-- Python `str.strip()` on a character list: drop leading and trailing
whitespace. -/
def pyStripList (l : List Char) : List Char :=
  ((l.dropWhile isPySpace).reverse.dropWhile isPySpace).reverse

/-- Python `str.strip()` on a string. -/
def pyStrip (s : String) : String :=
  String.mk (pyStripList s.data)

/-- Python `str.strip().lower()` on a string (ASCII lowering). -/
def pyStripLower (s : String) : String :=
  String.mk ((pyStripList s.data).map Char.toLower)

/-- Python `str.isdigit()` restricted to ASCII: nonempty and all digits. -/
def pyIsDigit (l : List Char) : Bool :=
  !l.isEmpty && l.all Char.isDigit

/-- The chain of `.replace(' ','').replace('-','').replace('+','')
.replace('(','').replace(')','')` from
`whatsapp-automation/utils/normalize_number.py` line 5. -/
def stripSeparators (l : List Char) : List Char :=
  ((((l.filter (· ≠ ' ')).filter (· ≠ '-')).filter (· ≠ '+')).filter
    (· ≠ '(')).filter (· ≠ ')')

/-- The residue the code computes before validating:
`str(number).strip()` followed by the separator removals
(`normalize_number.py` line 5). -/
def codeResidue (s : String) : List Char :=
  stripSeparators (pyStripList s.data)

/-- `normalize_number` from `whatsapp-automation/utils/normalize_number.py`.
A raised `ValueError` is modelled as `Except.error` with the message text. -/
def normalize_number (s : String) : Except String String :=
  if s = "" then .error "Phone number cannot be empty"
  else
    let n := codeResidue s
    if pyIsDigit n = false then .error ("Invalid phone number format: " ++ s)
    else if ¬(8 ≤ n.length ∧ n.length ≤ 15) then
      .error ("Phone number length invalid: " ++ s)
    else .ok (String.mk n)

/-- The residue by the spec's words for C3: strip whitespace, hyphens,
plus signs and parentheses (read as: remove every whitespace character and
every separator, wherever it occurs). Used only to compare the claim's
reading with `normalize_number`. -/
def claimResidue (s : String) : List Char :=
  s.data.filter (fun c => !(isPySpace c || c = '-' || c = '+' || c = '(' || c = ')'))

/-! ## WhatsApp variant (`whatsapp-automation`) -/

/-- `COLUMN_NAME` from `whatsapp-automation/config/config.py`. -/
def COLUMN_NAME : String := "phone number"

/-- State of a `WhatsAppMessageSender`: the in-memory set of normalized
contacted numbers (`self.contacted_numbers`) and the persisted
`contacted.csv` data rows (raw strings, in append order). -/
structure WaState where
  contacted : List String
  file : List String
deriving DecidableEq

/-- Observable events of the WhatsApp per-contact send loop. `attempt`
marks a delivery attempt being entered for a normalized identity (the
retry loop of `process_single_contact`); `skipped` is the
"already contacted" skip; `sent` / `failed` record the outcome. -/
inductive WaEv where
  | skipped (nn : String)
  | attempt (nn : String)
  | sent (nn : String)
  | failed (nn : String)
deriving DecidableEq

/-- The retry loop of `process_single_contact` (`max_retries = 3`,
`core/message_sender.py` lines 62-85): the attempt index of the first
successful transport call, if any of the three succeeds. -/
def firstSuccess (oracle : String → Nat → Bool) (number : String) : Option Nat :=
  if oracle number 0 then some 0
  else if oracle number 1 then some 1
  else if oracle number 2 then some 2
  else none

/-- The success branch of `process_single_contact` (lines 72-74):
`safely_append_to_contacted(number)` appends the raw number to
`contacted.csv`, and the normalized number is added to the in-memory set. -/
def recordContacted (st : WaState) (number nn : String) : WaState :=
  { contacted := nn :: st.contacted, file := st.file ++ [number] }

/-- `WhatsAppMessageSender.process_single_contact`
(`core/message_sender.py` lines 37-91) for a contact whose row has the
phone-number column set to `number`. `oracle number k` is the outcome of
transport attempt `k`. A `ValueError` raised by `normalize_number` is not
caught (the `except` clause catches only `KeyError`), so it propagates as
`Except.error`. -/
def process_single_contact (oracle : String → Nat → Bool) (st : WaState)
    (number : String) : Except String (Bool × WaState × List WaEv) :=
  match normalize_number number with
  | .error e => .error e
  | .ok nn =>
    if st.contacted.contains nn then
      .ok (false, st, [.skipped nn])
    else
      match firstSuccess oracle number with
      | some _ => .ok (true, recordContacted st number nn, [.attempt nn, .sent nn])
      | none => .ok (false, st, [.attempt nn, .failed nn])

/-- The per-contact loop of `WhatsAppMessageSender.process_contacts`
(`core/message_sender.py` lines 118-129): each contact is processed in
turn; an uncaught exception aborts the loop (caught as a fatal error by
the surrounding `try`, ending the shard). -/
def process_contacts (oracle : String → Nat → Bool) :
    List String → WaState → WaState × List WaEv
  | [], st => (st, [])
  | number :: rest, st =>
    match process_single_contact oracle st number with
    | .error _ => (st, [])
    | .ok (_, st', evs) =>
      let p := process_contacts oracle rest st'
      (p.1, evs ++ p.2)

/-- The per-file inner loop of `load_all_contacts`
(`utils/contact_manager.py` lines 37-62): rows of one CSV file are
normalized; a row whose normalized number was already seen is filtered
out as a duplicate; a `ValueError` raised by `normalize_number` aborts
the rest of this file (the per-file `except` at line 70) while keeping
what was already collected. Returns the updated seen-set and the kept
rows of this file. -/
def loadFileContacts : List String → List String → List String × List String
  | [], seen => (seen, [])
  | row :: rest, seen =>
    match normalize_number row with
    | .error _ => (seen, [])
    | .ok nn =>
      if seen.contains nn then loadFileContacts rest seen
      else
        let p := loadFileContacts rest (nn :: seen)
        (p.1, row :: p.2)

/-- The outer loop of `load_all_contacts` over the CSV files of the
folder, threading the cross-file seen-set. -/
def loadAllContactsAux : List (List String) → List String → List String
  | [], _ => []
  | f :: fs, seen =>
    let p := loadFileContacts f seen
    p.2 ++ loadAllContactsAux fs p.1

/-- `load_all_contacts` (`utils/contact_manager.py` lines 6-104): the
deduplicated contact list collected from the folder's CSV files. -/
def load_all_contacts (files : List (List String)) : List String :=
  loadAllContactsAux files []

/-- The number of rows of `l` whose normalization is exactly `nn`. -/
def keyCount (nn : String) (l : List String) : Nat :=
  l.countP (fun r => normalize_number r = .ok nn)

/-- Persisted state of `contacted.csv` as seen by
`load_contacted_numbers`: absent, fully empty, or a CSV with a header
row and data rows. -/
inductive LedgerFile where
  | missing
  | empty
  | csv (header : List String) (rows : List (List String))
deriving DecidableEq

/-- `load_contacted_numbers` (`utils/contact_manager.py` lines 106-125).
A missing file is replaced by a header-only file and yields the empty
set; an empty file likewise; a CSV whose header lacks `COLUMN_NAME`
raises (the `ValueError` is re-raised as `Exception` by the final
`except` clause), modelled as `Except.error`. Returns the loaded
contacted values and the resulting file state. -/
def load_contacted_numbers (f : LedgerFile) :
    Except String (List String × LedgerFile) :=
  match f with
  | .missing => .ok ([], .csv [COLUMN_NAME] [])
  | .empty => .ok ([], .csv [COLUMN_NAME] [])
  | .csv header rows =>
    if header.contains COLUMN_NAME then
      let i := header.indexOf COLUMN_NAME
      .ok (rows.map (fun r => r.getD i ""), .csv header rows)
    else .error ("Error reading contacted.csv: '" ++ COLUMN_NAME ++ "' column not found")

/-- `WhatsAppMessageSender.load_contacted_numbers`
(`core/message_sender.py` lines 30-35): every loaded raw value is passed
through `normalize_number`; a raised `ValueError` propagates. -/
def reloadContacted : List String → Except String (List String)
  | [] => .ok []
  | x :: xs =>
    match normalize_number x, reloadContacted xs with
    | .ok nn, .ok rest => .ok (nn :: rest)
    | .error e, _ => .error e
    | .ok _, .error e => .error e

/-- The ledger `record` operation of the spec, as the code implements it
in the success branch of `process_single_contact` (lines 72-74): the raw
identity is appended to the persisted store and the normalized identity
is added to the in-memory set. -/
def waRecord (st : WaState) (i : String) : Except String WaState :=
  match normalize_number i with
  | .ok nn => .ok (recordContacted st i nn)
  | .error e => .error e

/-- The ledger `contains` operation: membership of the normalized
identity in the in-memory set (`process_single_contact` lines 54-57). -/
def waContains (st : WaState) (i : String) : Bool :=
  match normalize_number i with
  | .ok nn => st.contacted.contains nn
  | .error _ => false

/-! ## Instagram variant (`insta-auto`) -/

/-- `load_usernames` (`insta-auto/utils/data_handler.py` lines 4-31):
usernames from the source CSV minus those found in the messaged file
(a missing messaged file behaves as the empty list). In-run duplicates
in the source list are kept. -/
def load_usernames (usernames messaged : List String) : List String :=
  usernames.filter (fun u => !messaged.contains u)

/-- Persisted state of the Instagram variant: the messaged-users file and
the source usernames file. -/
structure InstaState where
  messagedFile : List String
  usernamesFile : List String
deriving DecidableEq

/-- Observable events of the Instagram send loop. -/
inductive InstaEv where
  | sent (u : String)
  | failed (u : String)
deriving DecidableEq

/-- One iteration of the loop in `insta-auto/main.py` lines 31-35:
on success, `record_messaged_user` appends to the messaged file and
`remove_username_from_file` drops every matching row from the source
file; on failure nothing is recorded and the loop continues. -/
def instaStep (oracle : String → Bool) (st : InstaState) (u : String) :
    InstaState × List InstaEv :=
  if oracle u then
    ({ messagedFile := st.messagedFile ++ [u],
       usernamesFile := st.usernamesFile.filter (· ≠ u) }, [.sent u])
  else (st, [.failed u])

/-- The loop of `insta-auto/main.py` over an in-memory username list. -/
def instaLoop (oracle : String → Bool) :
    List String → InstaState → InstaState × List InstaEv
  | [], st => (st, [])
  | u :: rest, st =>
    let p := instaStep oracle st u
    let q := instaLoop oracle rest p.1
    (q.1, p.2 ++ q.2)

/-- `main` of `insta-auto/main.py`: load usernames (filtering against the
messaged file), then message each one in turn. -/
def instaMain (oracle : String → Bool) (usernamesFile messagedFile : List String) :
    InstaState × List InstaEv :=
  instaLoop oracle (load_usernames usernamesFile messagedFile)
    { messagedFile := messagedFile, usernamesFile := usernamesFile }

/-! ## Email variant: SMTP fallback (`email-automation/src`) -/

/-- One SMTP channel configuration (host, port, connection type). -/
structure SmtpConfig where
  host : String
  port : Nat
  connType : String
deriving DecidableEq

/-- `Config.DEFAULT_SMTP_CONFIGS` (`src/core/config.py` lines 20-26). -/
def DEFAULT_SMTP_CONFIGS : List SmtpConfig :=
  [⟨"smtpout.secureserver.net", 465, "SSL"⟩,
   ⟨"smtpout.secureserver.net", 587, "TLS"⟩,
   ⟨"smtpout.secureserver.net", 25, "TLS"⟩,
   ⟨"smtp.secureserver.net", 465, "SSL"⟩,
   ⟨"smtp.secureserver.net", 587, "TLS"⟩]

/-- The config list tried by `EmailSender.send_email`
(`src/services/email_sender.py` lines 102-103): the user's configured
server first, then the defaults. -/
def smtpConfigs (userHost : String) (userPort : Nat) : List SmtpConfig :=
  ⟨userHost, userPort, if userPort = 465 then "SSL" else "TLS"⟩ :: DEFAULT_SMTP_CONFIGS

/-- Outcome of trying one SMTP config, by position in the tried list:
the connection fails, the login fails (both inside
`try_smtp_connection`), or the connection is established and the send
step fails or succeeds. -/
inductive SmtpStep where
  | connectFail
  | authFail
  | sendFail
  | sendOk
deriving DecidableEq

/-- Observable events of `send_email`, indexed by the position of the
config in the tried list: connection attempt, connection established,
login outcome, send outcome, and `server.quit()`. -/
inductive SmtpEv where
  | tryConn (i : Nat)
  | connOk (i : Nat)
  | loginOk (i : Nat)
  | loginFail (i : Nat)
  | sendOkEv (i : Nat)
  | sendFailEv (i : Nat)
  | quit (i : Nat)
deriving DecidableEq

/-- The events produced while trying the config at position `i`,
mirroring `try_smtp_connection` (`email_sender.py` lines 67-87) and the
send step of `send_email` (lines 108-131). On `connectFail` the SMTP
constructor raises and `try_smtp_connection` returns `None`; on
`authFail` the connection is established but `login` raises and
`try_smtp_connection` returns `None` without closing it; on a send
failure `server.quit()` is called in the handler; on success the message
is sent and `server.quit()` is called before breaking. -/
def stepEvents (o : SmtpStep) (i : Nat) : List SmtpEv :=
  match o with
  | .connectFail => [.tryConn i]
  | .authFail => [.tryConn i, .connOk i, .loginFail i]
  | .sendFail => [.tryConn i, .connOk i, .loginOk i, .sendFailEv i, .quit i]
  | .sendOk => [.tryConn i, .connOk i, .loginOk i, .sendOkEv i, .quit i]

/-- The per-config loop of `send_email` (lines 108-131): stop with
success at the first config whose send succeeds, otherwise advance to
the next config; if every config fails the loop falls through (the
caller raises `"All SMTP configurations failed"`, caught at line 139,
and `send_email` returns `False`). -/
def sendEmailLoop (oracle : Nat → SmtpStep) : Nat → List SmtpConfig → Bool × List SmtpEv
  | _, [] => (false, [])
  | i, _c :: rest =>
    match oracle i with
    | .sendOk => (true, stepEvents .sendOk i)
    | o =>
      let p := sendEmailLoop oracle (i + 1) rest
      (p.1, stepEvents o i ++ p.2)

/-- `EmailSender.send_email` (`src/services/email_sender.py` lines
89-141): returns whether the send succeeded, and the event trace. -/
def send_email (oracle : Nat → SmtpStep) (userHost : String) (userPort : Nat) :
    Bool × List SmtpEv :=
  sendEmailLoop oracle 0 (smtpConfigs userHost userPort)

/-! ## Email variant: row filter and worksheet batch (`email-automation/src`) -/

/-- `Config.APPROVED_STATUS` (`src/core/config.py` line 39). -/
def APPROVED_STATUS : String := "approved"

/-- One spreadsheet row as the string-keyed fields the code reads
(`record.get(...)` with `""` default). -/
structure SheetRecord where
  status : String
  sentFlag : String
  email : String
  subject : String
  body : String
  name : String
deriving DecidableEq

/-- `EmailUtils.should_send_email` (`src/utils/email_utils.py` lines
108-133): returns whether the send path is entered and the reasons
otherwise. -/
def should_send_email (r : SheetRecord) : Bool × List String :=
  let status := pyStripLower r.status
  let isSent := pyStripLower r.sentFlag
  let email := pyStrip r.email
  let subject := pyStrip r.subject
  let body := pyStrip r.body
  if status ≠ "approved" then (false, ["Not approved"])
  else if ["true", "yes", "1"].contains isSent then (false, ["Already sent"])
  else
    let missing := (if email = "" then ["Email"] else []) ++
      (if subject = "" then ["Subject"] else []) ++
      (if body = "" then ["Body"] else [])
    (missing.isEmpty, missing)

/-- Modelled from the spec: `EmailUtils.should_save_email_draft`, called
by `EmailAutomation._process_worksheet_for_drafts` (line 192), is not
present under `src/`; per the spec's `FILTERED_OUT` rule (§4.3) the
draft filter is the same approval / sent-flag / required-fields check as
`should_send_email`. -/
def should_save_email_draft (r : SheetRecord) : Bool × List String :=
  let status := pyStripLower r.status
  let isSent := pyStripLower r.sentFlag
  let email := pyStrip r.email
  let subject := pyStrip r.subject
  let body := pyStrip r.body
  if status ≠ "approved" then (false, ["Not approved"])
  else if ["true", "yes", "1"].contains isSent then (false, ["Already sent"])
  else
    let missing := (if email = "" then ["Email"] else []) ++
      (if subject = "" then ["Subject"] else []) ++
      (if body = "" then ["Body"] else [])
    (missing.isEmpty, missing)

/-- Observable events of `_process_worksheet_for_drafts`, indexed by the
1-based row number: row filtered out, draft save entered, draft saved,
draft save failed, and the fatal "mark as sent" failure. -/
inductive DraftEv where
  | filtered (i : Nat)
  | attemptSave (i : Nat)
  | saved (i : Nat)
  | saveFailed (i : Nat)
  | markFailed (i : Nat)
deriving DecidableEq

/-- The row number an event belongs to. -/
def draftEvRow : DraftEv → Nat
  | .filtered i => i
  | .attemptSave i => i
  | .saved i => i
  | .saveFailed i => i
  | .markFailed i => i

/-- The run counters of `_process_worksheet_for_drafts`
(`src/email_automation.py` lines 170-173). -/
structure DraftCounters where
  total : Nat
  approved : Nat
  notApproved : Nat
  sent : Nat
deriving DecidableEq

/-- The row loop of `EmailAutomation._process_worksheet_for_drafts`
(`src/email_automation.py` lines 175-217), starting at row index `i`
with counters `c`. `saveOk i` is the outcome of
`email_draft_manager.save_email_to_drafts` for row `i` and `markOk i`
the outcome of `sheets_manager.mark_as_sent`; a failed mark returns the
current counters immediately ("STOPPING EXECUTION", lines 205-209). -/
def processRowsForDrafts (saveOk markOk : Nat → Bool) :
    List SheetRecord → Nat → DraftCounters → DraftCounters × List DraftEv
  | [], _, c => (c, [])
  | r :: rest, i, c =>
    let c1 : DraftCounters := { c with total := c.total + 1 }
    let c2 : DraftCounters :=
      if pyStripLower r.status = APPROVED_STATUS then
        { c1 with approved := c1.approved + 1 }
      else { c1 with notApproved := c1.notApproved + 1 }
    if (should_save_email_draft r).1 then
      if saveOk i then
        let c3 : DraftCounters := { c2 with sent := c2.sent + 1 }
        if markOk i then
          let p := processRowsForDrafts saveOk markOk rest (i + 1) c3
          (p.1, .attemptSave i :: .saved i :: p.2)
        else
          (c3, [.attemptSave i, .saved i, .markFailed i])
      else
        let p := processRowsForDrafts saveOk markOk rest (i + 1) c2
        (p.1, .attemptSave i :: .saveFailed i :: p.2)
    else
      let p := processRowsForDrafts saveOk markOk rest (i + 1) c2
      (p.1, .filtered i :: p.2)

/-- `_process_worksheet_for_drafts` on a whole worksheet: rows are
enumerated from 1 and counters start at zero. -/
def processWorksheetForDrafts (saveOk markOk : Nat → Bool)
    (records : List SheetRecord) : DraftCounters × List DraftEv :=
  processRowsForDrafts saveOk markOk records 1 ⟨0, 0, 0, 0⟩

/-- One worksheet of a spreadsheet as `_process_single_sheet_for_drafts`
sees it: the permission check outcome, the records, and the save/mark
outcomes for its rows. -/
structure SheetTask where
  permission : Bool
  records : List SheetRecord
  saveOk : Nat → Bool
  markOk : Nat → Bool

/-- The worksheet loop of `_process_single_sheet_for_drafts`
(`src/email_automation.py` lines 136-154): worksheets failing the
permission check are skipped, the others are processed and their
counters accumulated. Events are tagged with the 1-based worksheet
position. -/
def processSheetAux : List SheetTask → Nat → DraftCounters × List (Nat × DraftEv)
  | [], _ => (⟨0, 0, 0, 0⟩, [])
  | t :: rest, w =>
    let p := processSheetAux rest (w + 1)
    if t.permission then
      let q := processWorksheetForDrafts t.saveOk t.markOk t.records
      (⟨q.1.total + p.1.total, q.1.approved + p.1.approved,
        q.1.notApproved + p.1.notApproved, q.1.sent + p.1.sent⟩,
       q.2.map (fun e => (w, e)) ++ p.2)
    else p

/-- `_process_single_sheet_for_drafts` over the worksheets of one
spreadsheet. -/
def processSingleSheetForDrafts (tasks : List SheetTask) :
    DraftCounters × List (Nat × DraftEv) :=
  processSheetAux tasks 1

/-! ## Lemmas about normalization -/

theorem isPySpace_eq_false_of_isDigit (c : Char) (h : c.isDigit = true) :
    isPySpace c = false := by
  unfold isPySpace
  rcases eq_or_ne c ' ' with rfl | h1
  · exact absurd h (by decide)
  rcases eq_or_ne c '\t' with rfl | h2
  · exact absurd h (by decide)
  rcases eq_or_ne c '\n' with rfl | h3
  · exact absurd h (by decide)
  rcases eq_or_ne c '\r' with rfl | h4
  · exact absurd h (by decide)
  rcases eq_or_ne c '\x0b' with rfl | h5
  · exact absurd h (by decide)
  rcases eq_or_ne c '\x0c' with rfl | h6
  · exact absurd h (by decide)
  simp [h1, h2, h3, h4, h5, h6]

theorem dropWhile_isPySpace_of_digits (l : List Char)
    (h : l.all Char.isDigit = true) : l.dropWhile isPySpace = l := by
  cases l with
  | nil => rfl
  | cons a t =>
    have ha : a.isDigit = true := by
      rw [List.all_cons, Bool.and_eq_true] at h
      exact h.1
    rw [List.dropWhile_cons, isPySpace_eq_false_of_isDigit a ha]
    simp

theorem pyStripList_of_digits (l : List Char) (h : l.all Char.isDigit = true) :
    pyStripList l = l := by
  unfold pyStripList
  rw [dropWhile_isPySpace_of_digits l h,
    dropWhile_isPySpace_of_digits l.reverse (by simpa using h),
    List.reverse_reverse]

theorem stripSeparators_of_digits (l : List Char)
    (h : l.all Char.isDigit = true) : stripSeparators l = l := by
  have hmem : ∀ c ∈ l, c.isDigit = true := List.all_eq_true.mp h
  have f1 : l.filter (· ≠ ' ') = l :=
    List.filter_eq_self.mpr (fun a ha => by
      have := hmem a ha
      simp only [decide_eq_true_eq]
      intro hh; subst hh; exact absurd this (by decide))
  have f2 : l.filter (· ≠ '-') = l :=
    List.filter_eq_self.mpr (fun a ha => by
      have := hmem a ha
      simp only [decide_eq_true_eq]
      intro hh; subst hh; exact absurd this (by decide))
  have f3 : l.filter (· ≠ '+') = l :=
    List.filter_eq_self.mpr (fun a ha => by
      have := hmem a ha
      simp only [decide_eq_true_eq]
      intro hh; subst hh; exact absurd this (by decide))
  have f4 : l.filter (· ≠ '(') = l :=
    List.filter_eq_self.mpr (fun a ha => by
      have := hmem a ha
      simp only [decide_eq_true_eq]
      intro hh; subst hh; exact absurd this (by decide))
  have f5 : l.filter (· ≠ ')') = l :=
    List.filter_eq_self.mpr (fun a ha => by
      have := hmem a ha
      simp only [decide_eq_true_eq]
      intro hh; subst hh; exact absurd this (by decide))
  unfold stripSeparators
  rw [f1, f2, f3, f4, f5]

/-- Characterization of a successful `normalize_number`: it returns
exactly the code's residue, precisely when that residue is a nonempty
all-digit list of length 8 to 15. -/
theorem normalize_ok_iff (s r : String) :
    normalize_number s = .ok r ↔
      (pyIsDigit (codeResidue s) = true ∧ 8 ≤ (codeResidue s).length ∧
       (codeResidue s).length ≤ 15 ∧ r = String.mk (codeResidue s)) := by
  by_cases hs : s = ""
  · subst hs
    have hd : pyIsDigit (codeResidue "") = false := by decide
    simp [normalize_number, hd]
  · by_cases hd : pyIsDigit (codeResidue s) = true
    · by_cases hl : 8 ≤ (codeResidue s).length ∧ (codeResidue s).length ≤ 15
      · simp [normalize_number, hs, hd, hl.1, hl.2, eq_comm]
      · rw [Decidable.not_and_iff_or_not] at hl
        rcases hl with hl | hl <;> simp [normalize_number, hs, hd, hl]
    · have hd' : pyIsDigit (codeResidue s) = false := by
        revert hd; cases pyIsDigit (codeResidue s) <;> simp
      simp [normalize_number, hs, hd']

/-- C3 (counterexample): for the input `"1234\t5678"` the residue in the
claim's sense (all whitespace, hyphens, plus signs and parentheses
stripped) is the 8-digit string `"12345678"`, so the claim says
normalization succeeds; the code removes only space characters in the
interior, so `normalize_number` fails on this input. -/
theorem claim_C3_counterexample :
    claimResidue "1234\t5678" = "12345678".data ∧
    (claimResidue "1234\t5678").all Char.isDigit = true ∧
    (claimResidue "1234\t5678").length = 8 ∧
    normalize_number "1234\t5678" =
      .error "Invalid phone number format: 1234\t5678" := by decide

/-- C3 (amended): phone-number normalization strips leading/trailing
whitespace and interior space, hyphen, plus-sign and parenthesis
characters (other interior whitespace is not stripped); it succeeds and
returns the residue exactly when the residue is all digits with length
between 8 and 15 inclusive, and otherwise (all-digit check failed, or
fewer than 8 or more than 15 digits) it fails with an invalid-identity
error; an identity whose normalization fails aborts
`process_single_contact` before any delivery attempt. -/
theorem claim_C3_normalization :
    (∀ s r : String, normalize_number s = .ok r ↔
      (pyIsDigit (codeResidue s) = true ∧ 8 ≤ (codeResidue s).length ∧
       (codeResidue s).length ≤ 15 ∧ r = String.mk (codeResidue s))) ∧
    (∀ s : String,
      (pyIsDigit (codeResidue s) = false ∨ (codeResidue s).length < 8 ∨
        15 < (codeResidue s).length) →
      ∃ e, normalize_number s = .error e) ∧
    (∀ (oracle : String → Nat → Bool) (st : WaState) (n e : String),
      normalize_number n = .error e →
      process_single_contact oracle st n = .error e) := by
  refine ⟨normalize_ok_iff, ?_, ?_⟩
  · intro s h
    cases hn : normalize_number s with
    | error e => exact ⟨e, rfl⟩
    | ok r =>
      obtain ⟨hd, h8, h15, _⟩ := (normalize_ok_iff s r).mp hn
      rcases h with h | h | h
      · rw [hd] at h; exact absurd h (by decide)
      · omega
      · omega
  · intro oracle st n e h
    simp [process_single_contact, h]

/-- C3 (witness): a valid phone-like input succeeds; a 3-digit input
fails; an invalid identity aborts the per-contact processing with the
normalization error. -/
theorem claim_C3_witness :
    (normalize_number "+91 98-76(54)3210" = .ok "919876543210") ∧
    (∃ e, normalize_number "123" = .error e) ∧
    (process_single_contact (fun _ _ => true) ⟨[], []⟩ "12a" =
      .error "Invalid phone number format: 12a") :=
  ⟨(claim_C3_normalization.1 _ _).mpr (by decide),
   claim_C3_normalization.2.1 "123" (Or.inr (Or.inl (by decide))),
   claim_C3_normalization.2.2 _ _ _ _ (by decide)⟩

/-- C10: `normalize_number` is deterministic (it is a function of its
input alone) and idempotent on its successful outputs: if
`normalize_number s = ok r` then `normalize_number r = ok r`. -/
theorem claim_C10_normalize_idempotent (s r : String)
    (h : normalize_number s = .ok r) :
    normalize_number s = normalize_number s ∧ normalize_number r = .ok r := by
  refine ⟨rfl, ?_⟩
  obtain ⟨hd, h8, h15, hr⟩ := (normalize_ok_iff s r).mp h
  have hall : (codeResidue s).all Char.isDigit = true := by
    unfold pyIsDigit at hd
    rw [Bool.and_eq_true] at hd
    exact hd.2
  have hdata : r.data = codeResidue s := by rw [hr]
  have hres : codeResidue r = codeResidue s := by
    show stripSeparators (pyStripList r.data) = codeResidue s
    rw [hdata, pyStripList_of_digits _ hall, stripSeparators_of_digits _ hall]
  exact (normalize_ok_iff r r).mpr
    ⟨by rw [hres]; exact hd, by rw [hres]; exact h8,
     by rw [hres]; exact h15, by rw [hres]; exact hr⟩

/-- C10 (witness): idempotence at a concrete already-normalized input. -/
theorem claim_C10_witness :
    normalize_number "12345678" = normalize_number "12345678" ∧
    normalize_number "12345678" = .ok "12345678" :=
  claim_C10_normalize_idempotent "12345678" "12345678" (by decide)

/-! ## C2: ledger record / contains round-trip -/

theorem reloadContacted_append (xs : List String) (i nn : String)
    (hi : normalize_number i = .ok nn) (l : List String)
    (hl : reloadContacted xs = .ok l) :
    reloadContacted (xs ++ [i]) = .ok (l ++ [nn]) := by
  induction xs generalizing l with
  | nil =>
    simp only [reloadContacted] at hl
    cases hl
    simp [reloadContacted, hi]
  | cons x xs ih =>
    cases hx : normalize_number x with
    | error e => simp [reloadContacted, hx] at hl
    | ok nx =>
      cases hr : reloadContacted xs with
      | error e => simp [reloadContacted, hx, hr] at hl
      | ok rest =>
        simp only [reloadContacted, hx, hr] at hl
        cases hl
        simp [reloadContacted, hx, ih rest hr]

/-- C2 (counterexample): `record` does not append the normalized
identity to the persisted store; it appends the raw identity.  After
recording `"+12 345 678 90"` on an empty ledger the persisted store is
`["+12 345 678 90"]`, and the normalized identity `"1234567890"` is not
an entry of it. -/
theorem claim_C2_counterexample :
    waRecord ⟨[], []⟩ "+12 345 678 90" =
      .ok ⟨["1234567890"], ["+12 345 678 90"]⟩ ∧
    normalize_number "+12 345 678 90" = .ok "1234567890" ∧
    "1234567890" ∉ (["+12 345 678 90"] : List String) := by decide

/-- C2 (amended): for every identity `i` that normalizes successfully,
`record(i)` appends the raw identity `i` to the persisted store and adds
the normalized identity to the in-memory set; after `record(i)`,
`contains(i)` is true within the same process, and after a reload the
normalized identity is again obtained because reloading normalizes every
persisted entry. -/
theorem claim_C2_record_roundtrip (st : WaState) (i nn : String)
    (hi : normalize_number i = .ok nn) (l : List String)
    (hl : reloadContacted st.file = .ok l) :
    waRecord st i = .ok (recordContacted st i nn) ∧
    (recordContacted st i nn).file = st.file ++ [i] ∧
    (recordContacted st i nn).contacted.contains nn = true ∧
    waContains (recordContacted st i nn) i = true ∧
    reloadContacted (recordContacted st i nn).file = .ok (l ++ [nn]) ∧
    nn ∈ l ++ [nn] := by
  refine ⟨by simp [waRecord, hi], rfl, by simp [recordContacted], ?_, ?_, by simp⟩
  · simp [waContains, hi, recordContacted]
  · exact reloadContacted_append st.file i nn hi l hl

/-- C2 (witness): recording a concrete identity on an empty ledger. -/
theorem claim_C2_witness :
    waRecord ⟨[], []⟩ "98-76-54-32-10" = .ok (recordContacted ⟨[], []⟩ "98-76-54-32-10" "9876543210") ∧
    (recordContacted ⟨[], []⟩ "98-76-54-32-10" "9876543210").file = [] ++ ["98-76-54-32-10"] ∧
    (recordContacted ⟨[], []⟩ "98-76-54-32-10" "9876543210").contacted.contains "9876543210" = true ∧
    waContains (recordContacted ⟨[], []⟩ "98-76-54-32-10" "9876543210") "98-76-54-32-10" = true ∧
    reloadContacted (recordContacted ⟨[], []⟩ "98-76-54-32-10" "9876543210").file = .ok ([] ++ ["9876543210"]) ∧
    "9876543210" ∈ [] ++ ["9876543210"] :=
  claim_C2_record_roundtrip ⟨[], []⟩ "98-76-54-32-10" "9876543210" (by decide) [] (by decide)

/-! ## C4: ledger loading tolerance -/

/-- C4 (counterexample): a persisted ledger whose header lacks the
expected `"phone number"` column is not treated as an empty ledger; the
load raises, aborting the run. -/
theorem claim_C4_counterexample :
    load_contacted_numbers (.csv ["foo"] [["99999999"]]) =
      .error "Error reading contacted.csv: 'phone number' column not found" := by
  decide

/-- C4 (amended): a missing ledger file is treated as an empty ledger and
the file is auto-created with a header; an empty file gets the header
added and yields an empty ledger; a header-only file yields an empty
ledger; a file with the expected column yields its column values; but a
persisted file whose header lacks the expected column is fatal (the load
raises), not treated as empty. -/
theorem claim_C4_ledger_load :
    (load_contacted_numbers .missing = .ok ([], .csv [COLUMN_NAME] [])) ∧
    (load_contacted_numbers .empty = .ok ([], .csv [COLUMN_NAME] [])) ∧
    (load_contacted_numbers (.csv [COLUMN_NAME] []) = .ok ([], .csv [COLUMN_NAME] [])) ∧
    (∀ (header : List String) (rows : List (List String)),
      header.contains COLUMN_NAME = true →
      load_contacted_numbers (.csv header rows) =
        .ok (rows.map (fun r => r.getD (header.indexOf COLUMN_NAME) ""),
          .csv header rows)) ∧
    (∀ (header : List String) (rows : List (List String)),
      header.contains COLUMN_NAME = false →
      ∃ e, load_contacted_numbers (.csv header rows) = .error e) := by
  refine ⟨by decide, by decide, by decide, ?_, ?_⟩
  · intro header rows h
    have h' : COLUMN_NAME ∈ header := by simpa using h
    simp [load_contacted_numbers, h']
  · intro header rows h
    have h' : COLUMN_NAME ∉ header := by simpa using h
    exact ⟨"Error reading contacted.csv: '" ++ COLUMN_NAME ++ "' column not found",
      by simp [load_contacted_numbers, h']⟩

/-- C4 (witness): loading a one-row ledger with the proper header, and
the fatal case for a wrong header. -/
theorem claim_C4_witness :
    load_contacted_numbers (.csv [COLUMN_NAME] [["919876543210"]]) =
      .ok ([["919876543210"]].map
        (fun r => r.getD ([COLUMN_NAME].indexOf COLUMN_NAME) ""),
        .csv [COLUMN_NAME] [["919876543210"]]) ∧
    (∃ e, load_contacted_numbers (.csv ["x"] []) = .error e) :=
  ⟨claim_C4_ledger_load.2.2.2.1 [COLUMN_NAME] [["919876543210"]] (by decide),
   claim_C4_ledger_load.2.2.2.2 ["x"] [] (by decide)⟩

/-! ## C7: row filter -/

theorem should_save_of_not_approved (r : SheetRecord)
    (h : pyStripLower r.status ≠ "approved") :
    should_save_email_draft r = (false, ["Not approved"]) := by
  simp [should_save_email_draft, h]

/-- C7: a row with status "approved", non-truthy sent flag and non-empty
identity, subject and body enters the send path; status "approved" with
a truthy sent flag is filtered out with reason "Already sent"; a
non-approved status is filtered out with reason "Not approved" and is
counted as not-approved by the worksheet batch loop. -/
theorem claim_C7_filter (r : SheetRecord) :
    (pyStripLower r.status = "approved" →
      ["true", "yes", "1"].contains (pyStripLower r.sentFlag) = false →
      pyStrip r.email ≠ "" → pyStrip r.subject ≠ "" → pyStrip r.body ≠ "" →
      should_send_email r = (true, [])) ∧
    (pyStripLower r.status = "approved" →
      ["true", "yes", "1"].contains (pyStripLower r.sentFlag) = true →
      should_send_email r = (false, ["Already sent"])) ∧
    (pyStripLower r.status ≠ "approved" →
      should_send_email r = (false, ["Not approved"]) ∧
      ∀ (saveOk markOk : Nat → Bool) (i : Nat) (c : DraftCounters),
        processRowsForDrafts saveOk markOk [r] i c =
          ({ c with total := c.total + 1, notApproved := c.notApproved + 1 },
           [.filtered i])) := by
  refine ⟨?_, ?_, ?_⟩
  · intro h1 h2 h3 h4 h5
    have h2' : ¬(pyStripLower r.sentFlag = "true" ∨ pyStripLower r.sentFlag = "yes" ∨
        pyStripLower r.sentFlag = "1") := by simpa using h2
    push_neg at h2'
    simp [should_send_email, h1, h2'.1, h2'.2.1, h2'.2.2, h3, h4, h5]
  · intro h1 h2
    have h2' : pyStripLower r.sentFlag = "true" ∨ pyStripLower r.sentFlag = "yes" ∨
        pyStripLower r.sentFlag = "1" := by simpa using h2
    rcases h2' with h | h | h <;> simp [should_send_email, h1, h]
  · intro h1
    refine ⟨by simp [should_send_email, h1], ?_⟩
    intro saveOk markOk i c
    have hss := should_save_of_not_approved r h1
    have h1' : ¬(pyStripLower r.status = APPROVED_STATUS) := h1
    simp [processRowsForDrafts, hss, h1']

/-- C7 (witness): the three scenarios at concrete rows. -/
theorem claim_C7_witness :
    should_send_email ⟨"Approved", "", "a@b.c", "Hello", "Body text", "N"⟩ = (true, []) ∧
    should_send_email ⟨"approved", "TRUE", "a@b.c", "Hello", "Body text", "N"⟩ =
      (false, ["Already sent"]) ∧
    should_send_email ⟨"pending", "", "a@b.c", "Hello", "Body text", "N"⟩ =
      (false, ["Not approved"]) ∧
    processRowsForDrafts (fun _ => true) (fun _ => true)
        [⟨"pending", "", "a@b.c", "Hello", "Body text", "N"⟩] 1 ⟨0, 0, 0, 0⟩ =
      (⟨1, 0, 1, 0⟩, [.filtered 1]) :=
  ⟨(claim_C7_filter _).1 (by decide) (by decide) (by decide) (by decide) (by decide),
   (claim_C7_filter _).2.1 (by decide) (by decide),
   ((claim_C7_filter _).2.2 (by decide)).1,
   ((claim_C7_filter _).2.2 (by decide)).2 _ _ 1 ⟨0, 0, 0, 0⟩⟩

/-! ## C5: SMTP channel fallback -/

theorem sendEmailLoop_all_fail (oracle : Nat → SmtpStep) :
    ∀ (cfgs : List SmtpConfig) (i : Nat),
      (∀ j, j < cfgs.length → oracle (i + j) ≠ .sendOk) →
      (sendEmailLoop oracle i cfgs).1 = false := by
  intro cfgs
  induction cfgs with
  | nil => intro i _; rfl
  | cons c rest ih =>
    intro i h
    have h0 : oracle i ≠ .sendOk := by
      have := h 0 (by simp)
      simpa using this
    cases ho : oracle i with
    | sendOk => exact absurd ho h0
    | connectFail =>
      simp only [sendEmailLoop, ho]
      exact ih (i + 1) (fun j hj => by
        have := h (j + 1) (by simpa using Nat.succ_lt_succ hj)
        simpa [Nat.add_assoc, Nat.add_comm 1 j] using this)
    | authFail =>
      simp only [sendEmailLoop, ho]
      exact ih (i + 1) (fun j hj => by
        have := h (j + 1) (by simpa using Nat.succ_lt_succ hj)
        simpa [Nat.add_assoc, Nat.add_comm 1 j] using this)
    | sendFail =>
      simp only [sendEmailLoop, ho]
      exact ih (i + 1) (fun j hj => by
        have := h (j + 1) (by simpa using Nat.succ_lt_succ hj)
        simpa [Nat.add_assoc, Nat.add_comm 1 j] using this)

theorem sendEmailLoop_first_success (oracle : Nat → SmtpStep) :
    ∀ (cfgs : List SmtpConfig) (i j : Nat),
      j < cfgs.length → oracle (i + j) = .sendOk →
      (∀ k, k < j → oracle (i + k) ≠ .sendOk) →
      sendEmailLoop oracle i cfgs =
        (true, ((List.range j).map
          (fun k => stepEvents (oracle (i + k)) (i + k))).flatten ++
          stepEvents .sendOk (i + j)) := by
  intro cfgs
  induction cfgs with
  | nil => intro i j hj; exact absurd hj (by simp)
  | cons c rest ih =>
    intro i j hj hsucc hbefore
    cases j with
    | zero =>
      have ho : oracle i = .sendOk := by simpa using hsucc
      simp [sendEmailLoop, ho]
    | succ j' =>
      have h0 : oracle i ≠ .sendOk := by
        have := hbefore 0 (Nat.succ_pos j')
        simpa using this
      have harith : ∀ k : Nat, i + 1 + k = i + (k + 1) := by omega
      have hrest := ih (i + 1) j' (by simpa using Nat.lt_of_succ_lt_succ hj)
        (by rw [harith]; exact hsucc)
        (fun k hk => by
          rw [harith]
          exact hbefore (k + 1) (Nat.succ_lt_succ hk))
      cases ho : oracle i with
      | sendOk => exact absurd ho h0
      | connectFail =>
        simp only [sendEmailLoop, ho, hrest]
        simp only [harith, List.range_succ_eq_map, List.map_cons, List.map_map,
          Function.comp_def, Nat.succ_eq_add_one, Nat.add_zero, List.flatten_cons,
          List.append_assoc, ho]
      | authFail =>
        simp only [sendEmailLoop, ho, hrest]
        simp only [harith, List.range_succ_eq_map, List.map_cons, List.map_map,
          Function.comp_def, Nat.succ_eq_add_one, Nat.add_zero, List.flatten_cons,
          List.append_assoc, ho]
      | sendFail =>
        simp only [sendEmailLoop, ho, hrest]
        simp only [harith, List.range_succ_eq_map, List.map_cons, List.map_map,
          Function.comp_def, Nat.succ_eq_add_one, Nat.add_zero, List.flatten_cons,
          List.append_assoc, ho]

/-- C5 (counterexample): with the user config `smtp.godaddy.com:587` and
an oracle under which the first config establishes a connection but
fails authentication and the second config succeeds, the trace shows the
connection of config 0 established (`connOk 0`) and failed
(`loginFail 0`) with no `quit 0` cleanup — the partial connection of a
failed config is not closed, contrary to the claim's
"cleanup of a partial connection on failure". -/
theorem claim_C5_counterexample :
    (send_email (fun i => if i = 0 then .authFail else .sendOk)
        "smtp.godaddy.com" 587).2 =
      [.tryConn 0, .connOk 0, .loginFail 0, .tryConn 1, .connOk 1,
       .loginOk 1, .sendOkEv 1, .quit 1] ∧
    SmtpEv.connOk 0 ∈ (send_email (fun i => if i = 0 then .authFail else .sendOk)
        "smtp.godaddy.com" 587).2 ∧
    SmtpEv.quit 0 ∉ (send_email (fun i => if i = 0 then .authFail else .sendOk)
        "smtp.godaddy.com" 587).2 := by decide

/-- C5 (amended): a delivery attempt tries the channel configs in their
listed order (the user's config, then the defaults), each as an
independent connect/authenticate/send; it stops at the first config
whose send succeeds and reports success, having tried exactly the
earlier configs before it in order; if every config fails, `send_email`
reports failure (the generic aggregate error
"All SMTP configurations failed"); the connection is closed on a send
failure, but a connect or authenticate failure abandons the partial
connection without an explicit close. -/
theorem claim_C5_channel_fallback :
    (∀ (oracle : Nat → SmtpStep) (userHost : String) (userPort j : Nat),
      j < (smtpConfigs userHost userPort).length →
      oracle j = .sendOk → (∀ k, k < j → oracle k ≠ .sendOk) →
      send_email oracle userHost userPort =
        (true, ((List.range j).map (fun k => stepEvents (oracle k) k)).flatten ++
          stepEvents .sendOk j)) ∧
    (∀ (oracle : Nat → SmtpStep) (userHost : String) (userPort : Nat),
      (∀ j, j < (smtpConfigs userHost userPort).length → oracle j ≠ .sendOk) →
      (send_email oracle userHost userPort).1 = false) ∧
    (∀ i, SmtpEv.quit i ∈ stepEvents .sendFail i ∧
      SmtpEv.quit i ∉ stepEvents .authFail i ∧
      SmtpEv.quit i ∉ stepEvents .connectFail i) := by
  refine ⟨?_, ?_, ?_⟩
  · intro oracle userHost userPort j hj hsucc hbefore
    have := sendEmailLoop_first_success oracle (smtpConfigs userHost userPort) 0 j
      hj (by simpa using hsucc) (fun k hk => by simpa using hbefore k hk)
    simpa [send_email] using this
  · intro oracle userHost userPort h
    exact sendEmailLoop_all_fail oracle (smtpConfigs userHost userPort) 0
      (fun j hj => by simpa using h j hj)
  · intro i
    refine ⟨by simp [stepEvents], by simp [stepEvents], by simp [stepEvents]⟩

/-- C5 (witness): two configs fail to connect, the third succeeds; and a
run in which every config fails reports failure. -/
theorem claim_C5_witness :
    send_email (fun i => if i < 2 then .connectFail else .sendOk) "mail.example.com" 465 =
      (true, ((List.range 2).map
        (fun k => stepEvents ((fun i => if i < 2 then SmtpStep.connectFail else .sendOk) k) k)).flatten ++
        stepEvents .sendOk 2) ∧
    (send_email (fun _ => .connectFail) "mail.example.com" 465).1 = false :=
  ⟨claim_C5_channel_fallback.1 (fun i => if i < 2 then .connectFail else .sendOk)
      "mail.example.com" 465 2 (by decide) (by decide)
      (fun k hk => by interval_cases k <;> decide),
   claim_C5_channel_fallback.2.1 (fun _ => .connectFail) "mail.example.com" 465
      (fun _ _ => by simp)⟩

/-! ## C6: halt after a failed mark-as-sent write -/

theorem processRows_row_le (saveOk markOk : Nat → Bool) :
    ∀ (rows : List SheetRecord) (i : Nat) (c : DraftCounters) (e : DraftEv),
      e ∈ (processRowsForDrafts saveOk markOk rows i c).2 → i ≤ draftEvRow e := by
  intro rows
  induction rows with
  | nil => intro i c e h; simp [processRowsForDrafts] at h
  | cons r rest ih =>
    intro i c e h
    cases hss : (should_save_email_draft r).1 with
    | true =>
      cases hsv : saveOk i with
      | true =>
        cases hmk : markOk i with
        | true =>
          simp only [processRowsForDrafts, hss, hsv, hmk, if_true,
            List.mem_cons] at h
          rcases h with rfl | rfl | h
          · simp [draftEvRow]
          · simp [draftEvRow]
          · have := ih (i + 1) _ e h
            omega
        | false =>
          simp only [processRowsForDrafts, hss, hsv, hmk, Bool.false_eq_true,
            if_false, if_true, List.mem_cons, List.not_mem_nil, or_false] at h
          rcases h with rfl | rfl | rfl <;> simp [draftEvRow]
      | false =>
        simp only [processRowsForDrafts, hss, hsv, Bool.false_eq_true, if_false,
          if_true, List.mem_cons] at h
        rcases h with rfl | rfl | h
        · simp [draftEvRow]
        · simp [draftEvRow]
        · have := ih (i + 1) _ e h
          omega
    | false =>
      simp only [processRowsForDrafts, hss, Bool.false_eq_true, if_false,
        List.mem_cons] at h
      rcases h with rfl | h
      · simp [draftEvRow]
      · have := ih (i + 1) _ e h
        omega

theorem processRows_halt (saveOk markOk : Nat → Bool) :
    ∀ (rows : List SheetRecord) (i : Nat) (c : DraftCounters) (k j : Nat),
      DraftEv.markFailed k ∈ (processRowsForDrafts saveOk markOk rows i c).2 →
      DraftEv.attemptSave j ∈ (processRowsForDrafts saveOk markOk rows i c).2 →
      j ≤ k := by
  intro rows
  induction rows with
  | nil => intro i c k j hk hj; simp [processRowsForDrafts] at hk
  | cons r rest ih =>
    intro i c k j hk hj
    cases hss : (should_save_email_draft r).1 with
    | true =>
      cases hsv : saveOk i with
      | true =>
        cases hmk : markOk i with
        | true =>
          simp only [processRowsForDrafts, hss, hsv, hmk, if_true,
            List.mem_cons] at hk hj
          rcases hk with hk | hk | hk
          · exact absurd hk (by simp)
          · exact absurd hk (by simp)
          · have hk' : i + 1 ≤ k := by
              have := processRows_row_le saveOk markOk rest (i + 1) _
                (DraftEv.markFailed k) hk
              simpa [draftEvRow] using this
            rcases hj with hj | hj | hj
            · cases hj; omega
            · exact absurd hj (by simp)
            · exact ih (i + 1) _ k j hk hj
        | false =>
          simp only [processRowsForDrafts, hss, hsv, hmk, Bool.false_eq_true,
            if_false, if_true, List.mem_cons, List.not_mem_nil, or_false] at hk hj
          rcases hk with hk | hk | hk
          · exact absurd hk (by simp)
          · exact absurd hk (by simp)
          · cases hk
            rcases hj with hj | hj | hj
            · cases hj; omega
            · exact absurd hj (by simp)
            · exact absurd hj (by simp)
      | false =>
        simp only [processRowsForDrafts, hss, hsv, Bool.false_eq_true, if_false,
          if_true, List.mem_cons] at hk hj
        rcases hk with hk | hk | hk
        · exact absurd hk (by simp)
        · exact absurd hk (by simp)
        · have hk' : i + 1 ≤ k := by
            have := processRows_row_le saveOk markOk rest (i + 1) _
              (DraftEv.markFailed k) hk
            simpa [draftEvRow] using this
          rcases hj with hj | hj | hj
          · cases hj; omega
          · exact absurd hj (by simp)
          · exact ih (i + 1) _ k j hk hj
    | false =>
      simp only [processRowsForDrafts, hss, Bool.false_eq_true, if_false,
        List.mem_cons] at hk hj
      rcases hk with hk | hk
      · exact absurd hk (by simp)
      · rcases hj with hj | hj
        · exact absurd hj (by simp)
        · exact ih (i + 1) _ k j hk hj

/-- C6 (counterexample): a spreadsheet with two worksheets, both passing
the permission check, each holding one approved ready row.  In worksheet
1 the draft save succeeds and the mark-as-sent write fails, halting that
worksheet; yet worksheet 2 of the same source still enters a delivery
attempt afterwards — the failed post-send status write does not stop
further sending in the source/run, only in the current worksheet. -/
theorem claim_C6_counterexample :
    (2, DraftEv.attemptSave 1) ∈ (processSingleSheetForDrafts
      [⟨true, [⟨"approved", "", "a@b.c", "S", "B", ""⟩], fun _ => true, fun _ => false⟩,
       ⟨true, [⟨"approved", "", "a@b.c", "S", "B", ""⟩], fun _ => true, fun _ => true⟩]).2 ∧
    (processSingleSheetForDrafts
      [⟨true, [⟨"approved", "", "a@b.c", "S", "B", ""⟩], fun _ => true, fun _ => false⟩,
       ⟨true, [⟨"approved", "", "a@b.c", "S", "B", ""⟩], fun _ => true, fun _ => true⟩]).2 =
      [(1, .attemptSave 1), (1, .saved 1), (1, .markFailed 1),
       (2, .attemptSave 1), (2, .saved 1)] := by decide

/-- C6 (amended): once a mark-as-sent write fails after a confirmed
successful save, no further delivery attempt is made in the worksheet
being processed — every delivery attempt in that worksheet's trace is at
a row no later than the failed write; processing of sibling worksheets
of the same source and of subsequent sources continues. -/
theorem claim_C6_halt_after_mark_failure (saveOk markOk : Nat → Bool)
    (records : List SheetRecord) (k j : Nat)
    (hk : DraftEv.markFailed k ∈ (processWorksheetForDrafts saveOk markOk records).2)
    (hj : DraftEv.attemptSave j ∈ (processWorksheetForDrafts saveOk markOk records).2) :
    j ≤ k :=
  processRows_halt saveOk markOk records 1 ⟨0, 0, 0, 0⟩ k j hk hj

/-- C6 (witness): a two-row worksheet whose first mark-as-sent write
fails; the only delivery attempt is at row 1. -/
theorem claim_C6_witness :
    DraftEv.markFailed 1 ∈ (processWorksheetForDrafts (fun _ => true) (fun _ => false)
      [⟨"approved", "", "a@b.c", "S", "B", ""⟩, ⟨"approved", "", "x@y.z", "S", "B", ""⟩]).2 ∧
    DraftEv.attemptSave 1 ∈ (processWorksheetForDrafts (fun _ => true) (fun _ => false)
      [⟨"approved", "", "a@b.c", "S", "B", ""⟩, ⟨"approved", "", "x@y.z", "S", "B", ""⟩]).2 ∧
    1 ≤ 1 :=
  ⟨by decide, by decide,
   claim_C6_halt_after_mark_failure (fun _ => true) (fun _ => false)
     [⟨"approved", "", "a@b.c", "S", "B", ""⟩, ⟨"approved", "", "x@y.z", "S", "B", ""⟩]
     1 1 (by decide) (by decide)⟩

/-! ## C9: summary counter arithmetic -/

theorem should_save_true_approved (r : SheetRecord)
    (h : (should_save_email_draft r).1 = true) :
    pyStripLower r.status = "approved" := by
  by_cases hs : pyStripLower r.status = "approved"
  · exact hs
  · rw [should_save_of_not_approved r hs] at h
    cases h

theorem processRows_counters_inv (saveOk markOk : Nat → Bool) :
    ∀ (rows : List SheetRecord) (i : Nat) (c : DraftCounters),
      c.approved + c.notApproved = c.total → c.sent ≤ c.approved →
      ((processRowsForDrafts saveOk markOk rows i c).1.approved +
        (processRowsForDrafts saveOk markOk rows i c).1.notApproved =
        (processRowsForDrafts saveOk markOk rows i c).1.total ∧
       (processRowsForDrafts saveOk markOk rows i c).1.sent ≤
        (processRowsForDrafts saveOk markOk rows i c).1.approved) := by
  intro rows
  induction rows with
  | nil => intro i c h1 h2; exact ⟨h1, h2⟩
  | cons r rest ih =>
    intro i c h1 h2
    cases hss : (should_save_email_draft r).1 with
    | true =>
      have hst : pyStripLower r.status = APPROVED_STATUS :=
        should_save_true_approved r hss
      cases hsv : saveOk i with
      | true =>
        cases hmk : markOk i with
        | true =>
          simp only [processRowsForDrafts, hss, hsv, hmk, hst, if_true, if_pos rfl]
          exact ih (i + 1) _ (by show c.approved + 1 + c.notApproved = c.total + 1; omega)
            (by show c.sent + 1 ≤ c.approved + 1; omega)
        | false =>
          simp only [processRowsForDrafts, hss, hsv, hmk, hst, Bool.false_eq_true,
            if_false, if_true, if_pos rfl]
          refine ⟨?_, ?_⟩
          · show c.approved + 1 + c.notApproved = c.total + 1; omega
          · show c.sent + 1 ≤ c.approved + 1; omega
      | false =>
        simp only [processRowsForDrafts, hss, hsv, hst, Bool.false_eq_true,
          if_false, if_true, if_pos rfl]
        exact ih (i + 1) _ (by show c.approved + 1 + c.notApproved = c.total + 1; omega)
          (by show c.sent ≤ c.approved + 1; omega)
    | false =>
      by_cases hst : pyStripLower r.status = APPROVED_STATUS
      · simp only [processRowsForDrafts, hss, Bool.false_eq_true, if_false,
          if_pos hst]
        exact ih (i + 1) _ (by show c.approved + 1 + c.notApproved = c.total + 1; omega)
          (by show c.sent ≤ c.approved + 1; omega)
      · simp only [processRowsForDrafts, hss, Bool.false_eq_true, if_false,
          if_neg hst]
        exact ih (i + 1) _ (by show c.approved + (c.notApproved + 1) = c.total + 1; omega)
          h2

theorem processSheetAux_counters_inv :
    ∀ (tasks : List SheetTask) (w : Nat),
      (processSheetAux tasks w).1.approved + (processSheetAux tasks w).1.notApproved =
        (processSheetAux tasks w).1.total ∧
      (processSheetAux tasks w).1.sent ≤ (processSheetAux tasks w).1.approved := by
  intro tasks
  induction tasks with
  | nil => intro w; exact ⟨rfl, Nat.le_refl 0⟩
  | cons t rest ih =>
    intro w
    cases hp : t.permission with
    | false => simpa [processSheetAux, hp] using ih (w + 1)
    | true =>
      have hw := processRows_counters_inv t.saveOk t.markOk t.records 1
        ⟨0, 0, 0, 0⟩ rfl (Nat.le_refl 0)
      have hr := ih (w + 1)
      simp only [processSheetAux, hp, if_true]
      constructor
      · show ((processWorksheetForDrafts t.saveOk t.markOk t.records).1.approved +
          (processSheetAux rest (w + 1)).1.approved) +
          ((processWorksheetForDrafts t.saveOk t.markOk t.records).1.notApproved +
          (processSheetAux rest (w + 1)).1.notApproved) =
          (processWorksheetForDrafts t.saveOk t.markOk t.records).1.total +
          (processSheetAux rest (w + 1)).1.total
        have := hw.1
        have := hr.1
        unfold processWorksheetForDrafts at *
        omega
      · show (processWorksheetForDrafts t.saveOk t.markOk t.records).1.sent +
          (processSheetAux rest (w + 1)).1.sent ≤
          (processWorksheetForDrafts t.saveOk t.markOk t.records).1.approved +
          (processSheetAux rest (w + 1)).1.approved
        have := hw.2
        have := hr.2
        unfold processWorksheetForDrafts at *
        omega

/-- C9: for every worksheet run and for every whole-sheet run, the batch
counters satisfy `approved + notApproved = total` and
`sent ≤ approved` (drafts saved never exceeds approved rows). -/
theorem claim_C9_summary_arithmetic :
    (∀ (saveOk markOk : Nat → Bool) (records : List SheetRecord),
      (processWorksheetForDrafts saveOk markOk records).1.approved +
        (processWorksheetForDrafts saveOk markOk records).1.notApproved =
        (processWorksheetForDrafts saveOk markOk records).1.total ∧
      (processWorksheetForDrafts saveOk markOk records).1.sent ≤
        (processWorksheetForDrafts saveOk markOk records).1.approved) ∧
    (∀ tasks : List SheetTask,
      (processSingleSheetForDrafts tasks).1.approved +
        (processSingleSheetForDrafts tasks).1.notApproved =
        (processSingleSheetForDrafts tasks).1.total ∧
      (processSingleSheetForDrafts tasks).1.sent ≤
        (processSingleSheetForDrafts tasks).1.approved) :=
  ⟨fun saveOk markOk records =>
    processRows_counters_inv saveOk markOk records 1 ⟨0, 0, 0, 0⟩ rfl (Nat.le_refl 0),
   fun tasks => processSheetAux_counters_inv tasks 1⟩

/-! ## C1: at most one delivery attempt per normalized identity per run -/

theorem loadFileContacts_spec :
    ∀ (rows seen : List String) (nn : String),
      (nn ∈ seen → keyCount nn (loadFileContacts rows seen).2 = 0) ∧
      keyCount nn (loadFileContacts rows seen).2 ≤ 1 ∧
      (1 ≤ keyCount nn (loadFileContacts rows seen).2 →
        nn ∈ (loadFileContacts rows seen).1) ∧
      (nn ∈ seen → nn ∈ (loadFileContacts rows seen).1) := by
  intro rows
  induction rows with
  | nil =>
    intro seen nn
    refine ⟨fun _ => rfl, by simp [loadFileContacts, keyCount], fun h => ?_, fun h => h⟩
    simp [loadFileContacts, keyCount] at h
  | cons row rest ih =>
    intro seen nn
    cases hnr : normalize_number row with
    | error e =>
      have hres : loadFileContacts (row :: rest) seen = (seen, []) := by
        simp [loadFileContacts, hnr]
      rw [hres]
      refine ⟨fun _ => rfl, by simp [keyCount], fun h => ?_, fun h => h⟩
      simp [keyCount] at h
    | ok nn' =>
      by_cases hseen : nn' ∈ seen
      · have hc : seen.contains nn' = true := by simpa using hseen
        simp only [loadFileContacts, hnr, hc, if_true]
        exact ih seen nn
      · have hc : seen.contains nn' = false := by simpa using hseen
        simp only [loadFileContacts, hnr, hc, Bool.false_eq_true, if_false]
        by_cases heq : nn = nn'
        · subst heq
          have hq := ih (nn :: seen) nn
          have hq0 : keyCount nn (loadFileContacts rest (nn :: seen)).2 = 0 :=
            hq.1 (List.mem_cons_self nn seen)
          have hcnt : keyCount nn (row :: (loadFileContacts rest (nn :: seen)).2) =
              keyCount nn (loadFileContacts rest (nn :: seen)).2 + 1 := by
            simp [keyCount, List.countP_cons, hnr]
          refine ⟨fun h => absurd h hseen, ?_, fun _ => ?_, fun h => absurd h hseen⟩
          · rw [hcnt, hq0]
          · exact hq.2.2.2 (List.mem_cons_self nn seen)
        · have hq := ih (nn' :: seen) nn
          have hcount : keyCount nn (row :: (loadFileContacts rest (nn' :: seen)).2) =
              keyCount nn (loadFileContacts rest (nn' :: seen)).2 := by
            simp [keyCount, List.countP_cons, hnr, Ne.symm heq]
          refine ⟨fun h => ?_, ?_, fun h => ?_, fun h => ?_⟩
          · rw [hcount]
            exact hq.1 (List.mem_cons_of_mem nn' h)
          · rw [hcount]
            exact hq.2.1
          · rw [hcount] at h
            exact hq.2.2.1 h
          · exact hq.2.2.2 (List.mem_cons_of_mem nn' h)

theorem loadAllContactsAux_spec :
    ∀ (files : List (List String)) (seen : List String) (nn : String),
      (nn ∈ seen → keyCount nn (loadAllContactsAux files seen) = 0) ∧
      keyCount nn (loadAllContactsAux files seen) ≤ 1 := by
  intro files
  induction files with
  | nil => intro seen nn; exact ⟨fun _ => rfl, by simp [loadAllContactsAux, keyCount]⟩
  | cons f fs ih =>
    intro seen nn
    have hf := loadFileContacts_spec f seen nn
    have hr := ih (loadFileContacts f seen).1 nn
    have happ : keyCount nn (loadAllContactsAux (f :: fs) seen) =
        keyCount nn (loadFileContacts f seen).2 +
        keyCount nn (loadAllContactsAux fs (loadFileContacts f seen).1) := by
      simp [loadAllContactsAux, keyCount, List.countP_append]
    constructor
    · intro h
      rw [happ, hf.1 h, hr.1 (hf.2.2.2 h)]
    · by_cases h1 : 1 ≤ keyCount nn (loadFileContacts f seen).2
      · have h2 := hr.1 (hf.2.2.1 h1)
        have h3 := hf.2.1
        omega
      · have h2 : keyCount nn (loadFileContacts f seen).2 = 0 := by omega
        have h3 := hr.2
        omega

theorem process_contacts_attempt_le (oracle : String → Nat → Bool) :
    ∀ (rows : List String) (st : WaState) (nn : String),
      List.count (WaEv.attempt nn) (process_contacts oracle rows st).2 ≤
        keyCount nn rows := by
  intro rows
  induction rows with
  | nil => intro st nn; simp [process_contacts, keyCount]
  | cons row rest ih =>
    intro st nn
    have hmono : keyCount nn rest ≤ keyCount nn (row :: rest) := by
      simp only [keyCount, List.countP_cons]
      omega
    cases hnr : normalize_number row with
    | error e =>
      simp [process_contacts, process_single_contact, hnr, keyCount]
    | ok nn' =>
      by_cases hc : st.contacted.contains nn' = true
      · simp only [process_contacts, process_single_contact, hnr, hc, if_true]
        have := ih st nn
        have hskip : List.count (WaEv.attempt nn)
            ([WaEv.skipped nn'] ++ (process_contacts oracle rest st).2) =
            List.count (WaEv.attempt nn) (process_contacts oracle rest st).2 := by
          simp [List.count_append, List.count_cons]
        rw [hskip]
        omega
      · have hc' : st.contacted.contains nn' = false := by
          revert hc; cases st.contacted.contains nn' <;> simp
        have hkey : keyCount nn (row :: rest) =
            keyCount nn rest + (if nn' = nn then 1 else 0) := by
          simp only [keyCount, List.countP_cons, hnr]
          by_cases heq : nn' = nn
          · simp [heq]
          · simp [heq]
        cases hfs : firstSuccess oracle row with
        | some k =>
          simp only [process_contacts, process_single_contact, hnr, hc',
            Bool.false_eq_true, if_false, hfs]
          have := ih (recordContacted st row nn') nn
          have hevs : List.count (WaEv.attempt nn)
              ([WaEv.attempt nn', WaEv.sent nn'] ++
                (process_contacts oracle rest (recordContacted st row nn')).2) =
              (if nn' = nn then 1 else 0) + List.count (WaEv.attempt nn)
                (process_contacts oracle rest (recordContacted st row nn')).2 := by
            by_cases heq : nn' = nn
            · subst heq; simp [List.count_append, List.count_cons]; omega
            · simp [List.count_append, List.count_cons, heq]
          rw [hevs, hkey]
          omega
        | none =>
          simp only [process_contacts, process_single_contact, hnr, hc',
            Bool.false_eq_true, if_false, hfs]
          have := ih st nn
          have hevs : List.count (WaEv.attempt nn)
              ([WaEv.attempt nn', WaEv.failed nn'] ++
                (process_contacts oracle rest st).2) =
              (if nn' = nn then 1 else 0) + List.count (WaEv.attempt nn)
                (process_contacts oracle rest st).2 := by
            by_cases heq : nn' = nn
            · subst heq; simp [List.count_append, List.count_cons]; omega
            · simp [List.count_append, List.count_cons, heq]
          rw [hevs, hkey]
          omega

/-- C1 (counterexample): in the Instagram variant, a run whose target
list contains the same identity twice makes two delivery attempts for
it — `load_usernames` filters only against the persisted messaged file,
not against in-run duplicates, so the claim's "exactly one delivery
attempt" fails. -/
theorem claim_C1_counterexample :
    (instaMain (fun _ => true) ["alice", "alice"] []).2 =
      [.sent "alice", .sent "alice"] ∧
    List.count (InstaEv.sent "alice")
      (instaMain (fun _ => true) ["alice", "alice"] []).2 = 2 := by decide

/-- C1 (amended): in the WhatsApp variant, at most one delivery attempt
is made per normalized identity per run: `load_all_contacts` keeps at
most one row per normalized identity (the second occurrence is filtered
out at load time as a duplicate), so the run over its output enters the
delivery path at most once per identity, and an identity already in the
ledger is skipped with the "already contacted" reason without any
transport action.  In the Instagram variant in-run duplicates are not
filtered: both occurrences pass `load_usernames`. -/
theorem claim_C1_at_most_one_attempt :
    (∀ (files : List (List String)) (nn : String),
      keyCount nn (load_all_contacts files) ≤ 1) ∧
    (∀ (files : List (List String)) (oracle : String → Nat → Bool) (nn : String),
      List.count (WaEv.attempt nn)
        (process_contacts oracle (load_all_contacts files) ⟨[], []⟩).2 ≤ 1) ∧
    (∀ (oracle : String → Nat → Bool) (st : WaState) (n nn : String),
      normalize_number n = .ok nn → st.contacted.contains nn = true →
      process_single_contact oracle st n = .ok (false, st, [.skipped nn])) ∧
    (∀ u : String, load_usernames [u, u] [] = [u, u]) := by
  refine ⟨?_, ?_, ?_, ?_⟩
  · intro files nn
    exact (loadAllContactsAux_spec files [] nn).2
  · intro files oracle nn
    exact Nat.le_trans
      (process_contacts_attempt_le oracle (load_all_contacts files) ⟨[], []⟩ nn)
      (loadAllContactsAux_spec files [] nn).2
  · intro oracle st n nn h1 h2
    have h2' : nn ∈ st.contacted := by simpa using h2
    simp [process_single_contact, h1, h2']
  · intro u
    simp [load_usernames]

/-- C1 (witness): a duplicated number is kept once by the load, and an
already-contacted identity is skipped without a transport action. -/
theorem claim_C1_witness :
    keyCount "12345678" (load_all_contacts [["12345678", "+12345678"]]) ≤ 1 ∧
    process_single_contact (fun _ _ => true) ⟨["12345678"], ["12345678"]⟩
      "12345678" =
      .ok (false, ⟨["12345678"], ["12345678"]⟩, [.skipped "12345678"]) :=
  ⟨claim_C1_at_most_one_attempt.1 [["12345678", "+12345678"]] "12345678",
   claim_C1_at_most_one_attempt.2.2.1 _ _ _ _ (by decide) (by decide)⟩

/-! ## C8: exhausted delivery attempts leave no trace and do not abort -/

/-- C8: if a contact's transport attempts all fail (the three retries in
the WhatsApp variant, or the single attempt in the Instagram variant),
no ledger entry is recorded (the state is unchanged, so the persisted
store and the sent status are untouched) and the run continues with the
next target: the remaining contacts are processed from the same state. -/
theorem claim_C8_transient_failure :
    (∀ (oracle : String → Nat → Bool) (st : WaState) (n nn : String),
      normalize_number n = .ok nn → st.contacted.contains nn = false →
      (∀ k, k < 3 → oracle n k = false) →
      process_single_contact oracle st n =
        .ok (false, st, [.attempt nn, .failed nn])) ∧
    (∀ (oracle : String → Nat → Bool) (st : WaState) (n nn : String)
      (rest : List String),
      normalize_number n = .ok nn → st.contacted.contains nn = false →
      (∀ k, k < 3 → oracle n k = false) →
      process_contacts oracle (n :: rest) st =
        ((process_contacts oracle rest st).1,
         [WaEv.attempt nn, WaEv.failed nn] ++ (process_contacts oracle rest st).2)) ∧
    (∀ (oracle : String → Bool) (st : InstaState) (u : String),
      oracle u = false → instaStep oracle st u = (st, [.failed u])) := by
  have key : ∀ (oracle : String → Nat → Bool) (st : WaState) (n nn : String),
      normalize_number n = .ok nn → st.contacted.contains nn = false →
      (∀ k, k < 3 → oracle n k = false) →
      process_single_contact oracle st n =
        .ok (false, st, [.attempt nn, .failed nn]) := by
    intro oracle st n nn h1 h2 h3
    have h2' : nn ∉ st.contacted := by simpa using h2
    have hfs : firstSuccess oracle n = none := by
      unfold firstSuccess
      rw [h3 0 (by omega), h3 1 (by omega), h3 2 (by omega)]
      simp
    simp [process_single_contact, h1, h2', hfs]
  refine ⟨key, ?_, ?_⟩
  · intro oracle st n nn rest h1 h2 h3
    simp only [process_contacts, key oracle st n nn h1 h2 h3]
  · intro oracle st u h
    simp [instaStep, h]

/-- C8 (witness): a contact whose three transport attempts all fail, in
front of a second contact that succeeds: nothing is recorded for the
first, and the second is still processed; and the Instagram failure
case. -/
theorem claim_C8_witness :
    process_single_contact (fun _ _ => false) ⟨[], []⟩ "12345678" =
      .ok (false, ⟨[], []⟩, [.attempt "12345678", .failed "12345678"]) ∧
    process_contacts (fun n _ => n ≠ "12345678") ["12345678", "23456789"] ⟨[], []⟩ =
      ((process_contacts (fun n _ => n ≠ "12345678") ["23456789"] ⟨[], []⟩).1,
       [WaEv.attempt "12345678", WaEv.failed "12345678"] ++
        (process_contacts (fun n _ => n ≠ "12345678") ["23456789"] ⟨[], []⟩).2) ∧
    instaStep (fun _ => false) ⟨[], ["bob"]⟩ "bob" = (⟨[], ["bob"]⟩, [.failed "bob"]) :=
  ⟨claim_C8_transient_failure.1 _ _ _ _ (by decide) (by decide)
      (fun k _ => by decide),
   claim_C8_transient_failure.2.1 _ _ _ "12345678" ["23456789"] (by decide)
      (by decide) (fun k _ => by decide),
   claim_C8_transient_failure.2.2 _ _ _ (by decide)⟩

